import Mathlib

/-!
# Verification of the bottle-launch lifecycle engine

A shallow embedding of the bottle-launch repository's core logic:

* `src/src/mount.go` — mount/unmount orchestration via udisks2
  (`udisksMountBottle`, `udisksMountBottleFIDO2`, `udisksUnmountBottle`);
* `permissions.go` — config persistence (`savePermissionsAtomic`,
  `loadPermissions`);
* `constants.go` (FIDO2 part) — `GetFIDO2Secret`, `IsFIDO2Bottle`;
* the bottle-management module — `getBottleHash`, `getMapperName`,
  `getConfigPath`, `deleteBottle`, `createBottleBase`,
  `CreateBottleWithYubiKey`.

External processes (udisksctl, cryptsetup, losetup, fido2-assert, truncate,
mkfs) are modelled by an environment record scripting each call site's
outcome; the embedded functions additionally return the ordered trace of
mutating external-tool invocations they perform, so that claims about
"no duplicate work" and "exactly one retry" are statements about the trace.
Strings are modelled as `List Char`; Go byte slices as `List Nat`
(each entry < 256).
-/

namespace BottleLaunch

/-- Go strings, modelled as their character lists. -/
abbrev Str := List Char

/-! ## Small Go string primitives (strings package) -/

/-- The characters `unicode.IsSpace` recognises in the Latin-1 range
(`strings.TrimSpace` cutset); further Unicode space-property runes do not
occur in this program's data. -/
def isGoSpace (c : Char) : Bool :=
  c = ' ' || c = '\t' || c = '\n' || c.toNat = 0x0B || c.toNat = 0x0C ||
  c = '\r' || c.toNat = 0x85 || c.toNat = 0xA0

/-- Model of `strings.TrimSpace`, left half. -/
def trimLeftSpace (s : Str) : Str := s.dropWhile isGoSpace

/-- Model of `strings.TrimSpace`. -/
def trimSpace (s : Str) : Str :=
  ((trimLeftSpace s).reverse.dropWhile isGoSpace).reverse

/-- Model of `strings.Trim(s, "\"")`: remove all leading and trailing quote runes. -/
def trimQuotes (s : Str) : Str :=
  ((s.dropWhile (· = '"')).reverse.dropWhile (· = '"')).reverse

/-- Model of `strings.Contains(s, sub)`. -/
def goContains (s sub : Str) : Bool := decide (sub <:+: s)

/-- Model of `strings.HasSuffix(s, suf)`. -/
def goHasSuffix (s suf : Str) : Bool := decide (suf <:+ s)

/-- Model of `strings.TrimSuffix(s, ".")`: drop one trailing dot if present. -/
def trimSuffixDot (s : Str) : Str :=
  if goHasSuffix s ['.'] then s.dropLast else s

/-- Model of `strings.ToLower` (ASCII; the program only compares against `"true"`). -/
def goToLower (s : Str) : Str := s.map Char.toLower

/-- Model of `strings.Split(s, "\n")`: split on every newline, keeping empty parts. -/
def splitNl : Str → List Str
  | [] => [[]]
  | c :: cs =>
    if c = '\n' then [] :: splitNl cs
    else
      match splitNl cs with
      | [] => [[c]]
      | l :: ls => (c :: l) :: ls

/-- Model of `strings.SplitN(line, "=", 2)` when it yields two parts: the text before
the first `=` and everything after it; `none` when no `=` occurs. -/
def splitEq2 : Str → Option (Str × Str)
  | [] => none
  | c :: cs =>
    if c = '=' then some ([], cs)
    else
      match splitEq2 cs with
      | none => none
      | some (k, v) => some (c :: k, v)

/-! ## strconv.Quote

Faithful for the ASCII range: `"` and `\` get a backslash escape, printable
ASCII passes through, the named control escapes are emitted, remaining ASCII
control bytes become `\xHH`; runes ≥ 0x80 pass through (as Go does for
printable runes — the program's config values are ASCII). -/

/-- Lower-case hex digit. -/
def hexDigit (n : Nat) : Char := "0123456789abcdef".data.getD n '0'

/-- One rune of `strconv.Quote`'s body. -/
def quoteChar (c : Char) : Str :=
  if c = '"' then ['\\', '"']
  else if c = '\\' then ['\\', '\\']
  else if 0x20 ≤ c.toNat ∧ c.toNat ≤ 0x7E then [c]
  else if c = '\x07' then ['\\', 'a']
  else if c = '\x08' then ['\\', 'b']
  else if c = '\x0C' then ['\\', 'f']
  else if c = '\n' then ['\\', 'n']
  else if c = '\r' then ['\\', 'r']
  else if c = '\t' then ['\\', 't']
  else if c = '\x0B' then ['\\', 'v']
  else if c.toNat < 0x80 then ['\\', 'x', hexDigit (c.toNat / 16), hexDigit (c.toNat % 16)]
  else [c]

/-- Model of `strconv.Quote`. -/
def goQuote (s : Str) : Str := '"' :: s.flatMap quoteChar ++ ['"']

/-! ## SHA-256 (crypto/sha256), over byte lists -/

/-- 2^32. -/
def M32 : Nat := 4294967296

/-- Right-rotate a 32-bit word by `n`. -/
def rotr (n x : Nat) : Nat := ((x >>> n) ||| (x <<< (32 - n))) % M32

def ch32 (x y z : Nat) : Nat := (x &&& y) ^^^ ((x ^^^ 0xffffffff) &&& z)

def maj32 (x y z : Nat) : Nat := (x &&& y) ^^^ (x &&& z) ^^^ (y &&& z)

def bigSigma0 (x : Nat) : Nat := rotr 2 x ^^^ rotr 13 x ^^^ rotr 22 x

def bigSigma1 (x : Nat) : Nat := rotr 6 x ^^^ rotr 11 x ^^^ rotr 25 x

def smallSigma0 (x : Nat) : Nat := rotr 7 x ^^^ rotr 18 x ^^^ (x >>> 3)

def smallSigma1 (x : Nat) : Nat := rotr 17 x ^^^ rotr 19 x ^^^ (x >>> 10)

/-- The 64 SHA-256 round constants. -/
def sha256K : List Nat :=
  [1116352408, 1899447441, 3049323471, 3921009573, 961987163,
   1508970993, 2453635748, 2870763221, 3624381080, 310598401,
   607225278, 1426881987, 1925078388, 2162078206, 2614888103,
   3248222580, 3835390401, 4022224774, 264347078, 604807628,
   770255983, 1249150122, 1555081692, 1996064986, 2554220882,
   2821834349, 2952996808, 3210313671, 3336571891, 3584528711,
   113926993, 338241895, 666307205, 773529912, 1294757372,
   1396182291, 1695183700, 1986661051, 2177026350, 2456956037,
   2730485921, 2820302411, 3259730800, 3345764771, 3516065817,
   3600352804, 4094571909, 275423344, 430227734, 506948616,
   659060556, 883997877, 958139571, 1322822218, 1537002063,
   1747873779, 1955562222, 2024104815, 2227730452, 2361852424,
   2428436474, 2756734187, 3204031479, 3329325298]

/-- The SHA-256 initial state. -/
def sha256H0 : List Nat :=
  [1779033703, 3144134277, 1013904242, 2773480762,
   1359893119, 2600822924, 528734635, 1541459225]

/-- Big-endian byte expansion of `x` to `n` bytes. -/
def beBytes : Nat → Nat → List Nat
  | 0, _ => []
  | n + 1, x => beBytes n (x / 256) ++ [x % 256]

/-- Group bytes into big-endian 32-bit words. -/
def bytesToWords : List Nat → List Nat
  | a :: b :: c :: d :: rest =>
    (((a * 256 + b) * 256 + c) * 256 + d) :: bytesToWords rest
  | _ => []

/-- Merkle–Damgård padding: `0x80`, zeros to 56 mod 64, 8-byte bit length. -/
def sha256Pad (msg : List Nat) : List Nat :=
  let z := (120 - (msg.length + 1) % 64) % 64
  msg ++ 0x80 :: List.replicate z 0 ++ beBytes 8 (8 * msg.length)

/-- One SHA-256 compression step over a 64-byte block. -/
def sha256Compress (h : List Nat) (block : List Nat) : List Nat :=
  let w0 := bytesToWords block
  let w := (List.range 48).foldl (fun w i =>
    w ++ [(smallSigma1 (w.getD (i + 14) 0) + w.getD (i + 9) 0 +
           smallSigma0 (w.getD (i + 1) 0) + w.getD i 0) % M32]) w0
  let st := (List.range 64).foldl
    (fun (st : Nat × Nat × Nat × Nat × Nat × Nat × Nat × Nat) t =>
      let (a, b, c, d, e, f, g, hh) := st
      let t1 := (hh + bigSigma1 e + ch32 e f g + sha256K.getD t 0 + w.getD t 0) % M32
      let t2 := (bigSigma0 a + maj32 a b c) % M32
      ((t1 + t2) % M32, a, b, c, (d + t1) % M32, e, f, g))
    (h.getD 0 0, h.getD 1 0, h.getD 2 0, h.getD 3 0,
     h.getD 4 0, h.getD 5 0, h.getD 6 0, h.getD 7 0)
  match st with
  | (a, b, c, d, e, f, g, hh) =>
    [(h.getD 0 0 + a) % M32, (h.getD 1 0 + b) % M32, (h.getD 2 0 + c) % M32,
     (h.getD 3 0 + d) % M32, (h.getD 4 0 + e) % M32, (h.getD 5 0 + f) % M32,
     (h.getD 6 0 + g) % M32, (h.getD 7 0 + hh) % M32]

/-- Split a byte list into 64-byte blocks (each step consumes at least one
element, so the list's length is always enough fuel). -/
def chunks64Fuel : Nat → List Nat → List (List Nat)
  | 0, _ => []
  | _ + 1, [] => []
  | n + 1, l@(_ :: _) => l.take 64 :: chunks64Fuel n (l.drop 64)

/-- Split a byte list into 64-byte blocks. -/
def chunks64 (l : List Nat) : List (List Nat) := chunks64Fuel l.length l

/-- Model of `sha256.Sum256`: the 32 digest bytes. -/
def sha256Bytes (msg : List Nat) : List Nat :=
  ((chunks64 (sha256Pad msg)).foldl sha256Compress sha256H0).flatMap (beBytes 4)

/-- Model of `hex.EncodeToString`: lower-case hex of a byte list. -/
def hexEncode (bs : List Nat) : Str :=
  bs.flatMap (fun b => [hexDigit (b / 16), hexDigit (b % 16)])

/-- UTF-8 bytes of one character (Go `[]byte(string)`). -/
def utf8Char (c : Char) : List Nat :=
  let n := c.toNat
  if n < 0x80 then [n]
  else if n < 0x800 then [0xC0 + n / 0x40, 0x80 + n % 0x40]
  else if n < 0x10000 then
    [0xE0 + n / 0x1000, 0x80 + n / 0x40 % 0x40, 0x80 + n % 0x40]
  else
    [0xF0 + n / 0x40000, 0x80 + n / 0x1000 % 0x40,
     0x80 + n / 0x40 % 0x40, 0x80 + n % 0x40]

/-- Go `[]byte(s)`: UTF-8 bytes of a string. -/
def utf8Encode (s : Str) : List Nat := s.flatMap utf8Char

/-! ## permissions.go — the Permissions record and its config codec -/

/-- Model of `Permissions`: seven sandbox flags, the last launched app, and the four
FIDO2 credential fields (all empty means a password bottle). -/
structure Permissions where
  Network : Bool
  Audio : Bool
  GPU : Bool
  Wayland : Bool
  X11 : Bool
  Camera : Bool
  Portals : Bool
  LastApp : Str
  FIDO2BottleID : Str
  FIDO2CredentialID : Str
  FIDO2Salt : Str
  FIDO2DeviceHint : Str
deriving DecidableEq, Repr

/-- Model of `defaultPermissions`. -/
def defaultPermissions : Permissions :=
  { Network := true, Audio := true, GPU := true, Wayland := true, X11 := true,
    Camera := false, Portals := false, LastApp := [], FIDO2BottleID := [],
    FIDO2CredentialID := [], FIDO2Salt := [], FIDO2DeviceHint := [] }

/-- The `boolToInt` closure of `savePermissionsAtomic`. -/
def boolToInt (b : Bool) : Str := if b then ['1'] else ['0']

/-- The `lines` slice `savePermissionsAtomic` writes: the eight mandatory
`KEY=VALUE` lines, then one line per non-empty FIDO2 field. -/
def savedLines (p : Permissions) : List Str :=
  ["PREF_NETWORK=".data ++ boolToInt p.Network,
   "PREF_AUDIO=".data ++ boolToInt p.Audio,
   "PREF_GPU=".data ++ boolToInt p.GPU,
   "PREF_WAYLAND=".data ++ boolToInt p.Wayland,
   "PREF_X11=".data ++ boolToInt p.X11,
   "PREF_CAMERA=".data ++ boolToInt p.Camera,
   "PREF_PORTALS=".data ++ boolToInt p.Portals,
   "PREF_LAST_APP=".data ++ goQuote p.LastApp]
  ++ (if p.FIDO2BottleID ≠ [] then
        ["FIDO2_BOTTLE_ID=".data ++ goQuote p.FIDO2BottleID] else [])
  ++ (if p.FIDO2CredentialID ≠ [] then
        ["FIDO2_CREDENTIAL_ID=".data ++ goQuote p.FIDO2CredentialID] else [])
  ++ (if p.FIDO2Salt ≠ [] then
        ["FIDO2_SALT=".data ++ goQuote p.FIDO2Salt] else [])
  ++ (if p.FIDO2DeviceHint ≠ [] then
        ["FIDO2_DEVICE_HINT=".data ++ goQuote p.FIDO2DeviceHint] else [])

/-- The file content `savePermissionsAtomic` persists on success: each line
followed by a newline (temp file, fsync, and atomic rename are the durability
mechanism; the content is what a subsequent `loadPermissions` reads). -/
def saveContent (p : Permissions) : Str := (savedLines p).flatMap (· ++ ['\n'])

/-- One iteration of `loadPermissions`' scanner loop over a raw line. -/
def applyLine (p : Permissions) (rawLine : Str) : Permissions :=
  let line := trimSpace rawLine
  if line = [] then p
  else if line.head? = some '#' then p
  else
    match splitEq2 line with
    | none => p
    | some (k, v) =>
      let key := trimSpace k
      let val := trimSpace v
      let boolVal := val == ['1'] || goToLower val == "true".data
      if key = "PREF_NETWORK".data then { p with Network := boolVal }
      else if key = "PREF_AUDIO".data then { p with Audio := boolVal }
      else if key = "PREF_GPU".data then { p with GPU := boolVal }
      else if key = "PREF_WAYLAND".data then { p with Wayland := boolVal }
      else if key = "PREF_X11".data then { p with X11 := boolVal }
      else if key = "PREF_CAMERA".data then { p with Camera := boolVal }
      else if key = "PREF_PORTALS".data then { p with Portals := boolVal }
      else if key = "PREF_LAST_APP".data then { p with LastApp := trimQuotes val }
      else if key = "FIDO2_BOTTLE_ID".data then { p with FIDO2BottleID := trimQuotes val }
      else if key = "FIDO2_CREDENTIAL_ID".data then { p with FIDO2CredentialID := trimQuotes val }
      else if key = "FIDO2_SALT".data then { p with FIDO2Salt := trimQuotes val }
      else if key = "FIDO2_DEVICE_HINT".data then { p with FIDO2DeviceHint := trimQuotes val }
      else p

/-- Model of `bufio.MaxScanTokenSize` (64 KiB), the default cap on the
scanner's buffer and so on the size of one token. -/
def maxScanTokenSize : Nat := 65536

/-- Model of the `bufio.Scanner` line loop over the file: the scanner yields
the lines in order until the first whose content no longer fits in the 64 KiB
buffer together with its newline terminator (a line of 65535 characters plus
its newline fills the buffer exactly and is still delivered; one character
more and `Scan` fails with `ErrTooLong`); `Scan` then returns false for good,
and since `loadPermissions` never consults `scanner.Err()`, that line and
every later line are silently dropped. -/
def scannedLines (content : Str) : List Str :=
  (splitNl content).takeWhile (fun l => l.length < maxScanTokenSize)

/-- Model of `loadPermissions` on a present file: start from the defaults and fold the
scanner loop over the lines the bounded scanner delivers (`bufio.Scanner`
yields the text between newlines; the trailing empty token is skipped by the
empty-line check). -/
def loadPermissions (content : Str) : Permissions :=
  (scannedLines content).foldl applyLine defaultPermissions

/-! ## constants.go (FIDO2 part) -/

/-- Model of `IsFIDO2Bottle`: all three identifying fields present means FIDO2 mode,
none means password mode, any other combination is a corrupted config
(the Go error text interpolates the three presence booleans; the model keeps
the fixed prefix). -/
def IsFIDO2Bottle (perms : Permissions) : Except Str Bool :=
  let hasBottleID := perms.FIDO2BottleID ≠ []
  let hasCredID := perms.FIDO2CredentialID ≠ []
  let hasSalt := perms.FIDO2Salt ≠ []
  if hasBottleID ∧ hasCredID ∧ hasSalt then .ok true
  else if ¬hasBottleID ∧ ¬hasCredID ∧ ¬hasSalt then .ok false
  else .error "config corrupted: FIDO2 data incomplete".data

/-- Value of one standard-alphabet base64 character. -/
def b64Val (c : Char) : Option Nat :=
  if 'A' ≤ c ∧ c ≤ 'Z' then some (c.toNat - 65)
  else if 'a' ≤ c ∧ c ≤ 'z' then some (c.toNat - 97 + 26)
  else if '0' ≤ c ∧ c ≤ '9' then some (c.toNat - 48 + 52)
  else if c = '+' then some 62
  else if c = '/' then some 63
  else none

/-- Decode base64 in quartets; `=` padding is legal only in the final quartet
(two or three data characters), anything else is corrupt input. -/
def b64DecodeGroups : Str → Option (List Nat)
  | [] => some []
  | c1 :: c2 :: c3 :: c4 :: rest =>
    match b64Val c1, b64Val c2 with
    | some v1, some v2 =>
      if c3 = '=' then
        if c4 = '=' ∧ rest = [] then some [v1 * 4 + v2 / 16] else none
      else
        match b64Val c3 with
        | some v3 =>
          if c4 = '=' then
            if rest = [] then some [v1 * 4 + v2 / 16, v2 % 16 * 16 + v3 / 4]
            else none
          else
            match b64Val c4 with
            | some v4 =>
              match b64DecodeGroups rest with
              | some bs =>
                some ((v1 * 4 + v2 / 16) :: (v2 % 16 * 16 + v3 / 4) ::
                      (v3 % 4 * 64 + v4) :: bs)
              | none => none
            | none => none
        | none => none
    | _, _ => none
  | _ => none

/-- Model of `base64.StdEncoding.DecodeString` (the decoder first discards CR/LF). -/
def b64Decode (s : Str) : Option (List Nat) :=
  b64DecodeGroups (s.filter (fun c => c != '\r' && c != '\n'))

/-- Environment for one `GetFIDO2Secret` call: whether the temp input file
could be written and reopened, and the `fido2-assert` process outcome. -/
structure AssertEnv where
  tempOk : Bool
  runOk : Bool
  stdout : Str
  stderr : Str

/-- The failure cases of `GetFIDO2Secret`. -/
inductive FIDO2Err
  | tempFile
  | assertFailed (stderr : Str)
  | shortOutput (nLines : Nat)
  | decodeFailed
  | badLength (n : Nat)
deriving DecidableEq, Repr

/-- Model of `GetFIDO2Secret`: run `fido2-assert` (the four input lines — challenge,
relying-party id, credential id, salt — feed the scripted tool), take the last
line of trimmed stdout, base64-decode it, and accept only an exactly 32-byte
secret. -/
def GetFIDO2Secret (env : AssertEnv) : Except FIDO2Err (List Nat) :=
  if ¬env.tempOk then .error .tempFile
  else if ¬env.runOk then .error (.assertFailed env.stderr)
  else
    let lines := splitNl (trimSpace env.stdout)
    if lines.length < 5 then .error (.shortOutput lines.length)
    else
      let hmacSecretB64 := trimSpace (lines.getLast? |>.getD [])
      match b64Decode hmacSecretB64 with
      | none => .error .decodeFailed
      | some secret =>
        if secret.length ≠ 32 then .error (.badLength secret.length)
        else .ok secret

/-! ## src/mount.go — mount/unmount orchestration

Each `udisksctl` call site is scripted by a `MountEnv` field; the embedded
functions return the result together with the ordered list of mutating
external-tool invocations performed (probes via `losetup -j`/`lsblk` are
read-only and not traced). -/

/-- Outcome of one external command: exit status and combined output. -/
structure ExecOut where
  ok : Bool
  out : Str
deriving DecidableEq, Repr

/-- A mutating external-tool invocation. -/
inductive UCall
  | loopSetup (file : Str)
  | unlock (dev : Str)
  | mount (dev : Str)
  | lock (dev : Str)
  | sync (mp : Str)
  | unmount (dev : Str) (force : Bool)
  | loopDelete (dev : Str)
deriving DecidableEq, Repr

/-- Model of `MountInfo`. -/
structure MountInfo where
  LoopDevice : Str
  CleartextDevice : Str
  MountPoint : Str
  BottlePath : Str
deriving DecidableEq, Repr

/-- The error values the mount/unmount functions return: the `filepath.Abs`
error passed through, a temp-key-file error (FIDO2 path), the distinguished
`errWrongPassword` sentinel (a package-level pointer the caller compares by
identity — `err == errWrongPassword` — so it is distinct from every freshly
allocated `&mountError{...}` even at equal content), or a fresh `mountError`
with operation name and diagnostic text. -/
inductive MountErr
  | absError
  | tempFileError
  | wrongPassword
  | mountError (op : Str) (msg : Str)
deriving DecidableEq, Repr

/-- Model of `errWrongPassword` (identity-compared sentinel; its display text is
`unlock: wrong password`). -/
def errWrongPassword : MountErr := .wrongPassword

/-- Model of `regexp` `/dev/loop\d+` / `/dev/dm-\d+` `FindString`: leftmost occurrence
of the literal prefix followed by at least one digit, digits taken greedily. -/
def findPrefixNum (pre : Str) : Str → Option Str
  | [] => none
  | c :: cs =>
    if pre <+: (c :: cs) then
      match ((c :: cs).drop pre.length).takeWhile Char.isDigit with
      | [] => findPrefixNum pre cs
      | ds => some (pre ++ ds)
    else findPrefixNum pre cs

/-- Regexp `\S` (not one of space, tab, newline, vertical tab, form feed,
carriage return). -/
def reNonSpace (c : Char) : Bool :=
  !(c = ' ' || c = '\t' || c = '\n' || c.toNat = 0x0B || c.toNat = 0x0C || c = '\r')

/-- Regexp `at (/\S+)` `FindStringSubmatch`, group 1: leftmost `at /` with at
least one further non-space character; the group is the slash plus the
greedy non-space run. -/
def findAtPath : Str → Option Str
  | 'a' :: 't' :: ' ' :: '/' :: rest =>
    match rest.takeWhile reNonSpace with
    | [] => findAtPath ('t' :: ' ' :: '/' :: rest)
    | p => some ('/' :: p)
  | _ :: cs => findAtPath cs
  | [] => none
termination_by s => s.length
decreasing_by all_goals simp_arith

/-- The mount-point parse shared by both mount functions: group 1 of
`at (/\S+)` with a trailing dot trimmed, or the fixed parse error. -/
def parseMountPoint (out : Str) : Except MountErr Str :=
  match findAtPath out with
  | some mp => .ok (trimSuffixDot mp)
  | none => .error (.mountError "mount".data "could not parse mount point".data)

/-- Environment of one mount-sequence invocation: `filepath.Abs`, the three
read-only probes, and the scripted outcome of each `udisksctl` call site
(`unlock2`/`mount2` are the stale-mapping recovery's call sites; `tempKeyOk`
and `tempKey2Ok` script `writeSecretToTempFile` in the FIDO2 variant). -/
structure MountEnv where
  absOf : Str → Option Str
  loopForFile : Str → Str
  cleartextForLoop : Str → Str
  mountForDevice : Str → Str
  loopSetup : ExecOut
  unlock1 : ExecOut
  mount1 : ExecOut
  unlock2 : ExecOut
  mount2 : ExecOut
  tempKeyOk : Bool
  tempKey2Ok : Bool

/-- Model of `udisksMountBottle`: resolve the path, probe the current chain, return it
unchanged when complete, otherwise attach / unlock (classifying wrong-password
diagnostics) / mount with the one-shot stale-mapping recovery. The `password`
argument is fed to the unlock call sites, whose outcomes `env` scripts. -/
def udisksMountBottle (env : MountEnv) (bottle _password : Str) :
    Except MountErr MountInfo × List UCall :=
  match env.absOf bottle with
  | none => (.error .absError, [])
  | some realPath =>
    let loop0 := env.loopForFile realPath
    let clear0 := if loop0 ≠ [] then env.cleartextForLoop loop0 else []
    let mp0 := if loop0 ≠ [] ∧ clear0 ≠ [] then env.mountForDevice clear0 else []
    if loop0 ≠ [] ∧ clear0 ≠ [] ∧ mp0 ≠ [] then
      (.ok ⟨loop0, clear0, mp0, realPath⟩, [])
    else
      let attach : Except MountErr Str × List UCall :=
        if loop0 = [] then
          (if env.loopSetup.ok then
             match findPrefixNum "/dev/loop".data env.loopSetup.out with
             | some dev => .ok dev
             | none => .error (.mountError "loop-setup".data
                 "could not parse loop device".data)
           else .error (.mountError "loop-setup".data env.loopSetup.out),
           [.loopSetup realPath])
        else (.ok loop0, [])
      match attach with
      | (.error e, tr1) => (.error e, tr1)
      | (.ok loopDev, tr1) =>
        let unlockStep : Except MountErr Str × List UCall :=
          if clear0 = [] then
            (if env.unlock1.ok then
               match findPrefixNum "/dev/dm-".data env.unlock1.out with
               | some dev => .ok dev
               | none => .error (.mountError "unlock".data
                   "could not parse cleartext device".data)
             else if goContains env.unlock1.out "Failed to activate device".data ||
                     goContains env.unlock1.out "No key available".data ||
                     goContains env.unlock1.out "passphrase".data then
               .error errWrongPassword
             else .error (.mountError "unlock".data env.unlock1.out),
             [.unlock loopDev])
          else (.ok clear0, [])
        match unlockStep with
        | (.error e, tr2) => (.error e, tr1 ++ tr2)
        | (.ok clearDev, tr2) =>
          let mountStep : Except MountErr (Str × Str) × List UCall :=
            if mp0 = [] then
              if env.mount1.ok then
                ((parseMountPoint env.mount1.out).map (clearDev, ·), [.mount clearDev])
              else if goContains env.mount1.out "Error looking up object for device".data
                      ∧ loopDev ≠ [] then
                -- stale dm device: relock + unlock to refresh udisks state, retry mount
                if env.unlock2.ok then
                  match findPrefixNum "/dev/dm-".data env.unlock2.out with
                  | none =>
                    (.error (.mountError "unlock".data
                        "could not parse cleartext device".data),
                     [.mount clearDev, .lock loopDev, .unlock loopDev])
                  | some clear2 =>
                    if env.mount2.ok then
                      ((parseMountPoint env.mount2.out).map (clear2, ·),
                       [.mount clearDev, .lock loopDev, .unlock loopDev, .mount clear2])
                    else
                      (.error (.mountError "mount".data env.mount2.out),
                       [.mount clearDev, .lock loopDev, .unlock loopDev, .mount clear2])
                else
                  (.error (.mountError "unlock".data env.unlock2.out),
                   [.mount clearDev, .lock loopDev, .unlock loopDev])
              else (.error (.mountError "mount".data env.mount1.out), [.mount clearDev])
            else (.ok (clearDev, mp0), [])
          match mountStep with
          | (.error e, tr3) => (.error e, tr1 ++ tr2 ++ tr3)
          | (.ok (clearFin, mp), tr3) =>
            (.ok ⟨loopDev, clearFin, mp, realPath⟩, tr1 ++ tr2 ++ tr3)

/-- Model of `udisksMountBottleFIDO2`: identical shape to `udisksMountBottle`, except
the key material goes through a temp key file (whose creation `env` scripts,
in both the unlock step and the recovery) and the wrong-key diagnostic maps
to the fixed wrong-YubiKey message instead of `errWrongPassword`. -/
def udisksMountBottleFIDO2 (env : MountEnv) (bottle : Str) (_fido2Secret : List Nat) :
    Except MountErr MountInfo × List UCall :=
  match env.absOf bottle with
  | none => (.error .absError, [])
  | some realPath =>
    let loop0 := env.loopForFile realPath
    let clear0 := if loop0 ≠ [] then env.cleartextForLoop loop0 else []
    let mp0 := if loop0 ≠ [] ∧ clear0 ≠ [] then env.mountForDevice clear0 else []
    if loop0 ≠ [] ∧ clear0 ≠ [] ∧ mp0 ≠ [] then
      (.ok ⟨loop0, clear0, mp0, realPath⟩, [])
    else
      let attach : Except MountErr Str × List UCall :=
        if loop0 = [] then
          (if env.loopSetup.ok then
             match findPrefixNum "/dev/loop".data env.loopSetup.out with
             | some dev => .ok dev
             | none => .error (.mountError "loop-setup".data
                 "could not parse loop device".data)
           else .error (.mountError "loop-setup".data env.loopSetup.out),
           [.loopSetup realPath])
        else (.ok loop0, [])
      match attach with
      | (.error e, tr1) => (.error e, tr1)
      | (.ok loopDev, tr1) =>
        let unlockStep : Except MountErr Str × List UCall :=
          if clear0 = [] then
            if ¬env.tempKeyOk then (.error .tempFileError, [])
            else
              (if env.unlock1.ok then
                 match findPrefixNum "/dev/dm-".data env.unlock1.out with
                 | some dev => .ok dev
                 | none => .error (.mountError "unlock".data
                     "could not parse cleartext device".data)
               else if goContains env.unlock1.out "Failed to activate device".data ||
                       goContains env.unlock1.out "No key available".data ||
                       goContains env.unlock1.out "passphrase".data then
                 .error (.mountError "unlock".data
                   "wrong YubiKey - use the key that created this bottle".data)
               else .error (.mountError "unlock".data env.unlock1.out),
               [.unlock loopDev])
          else (.ok clear0, [])
        match unlockStep with
        | (.error e, tr2) => (.error e, tr1 ++ tr2)
        | (.ok clearDev, tr2) =>
          let mountStep : Except MountErr (Str × Str) × List UCall :=
            if mp0 = [] then
              if env.mount1.ok then
                ((parseMountPoint env.mount1.out).map (clearDev, ·), [.mount clearDev])
              else if goContains env.mount1.out "Error looking up object for device".data
                      ∧ loopDev ≠ [] then
                -- stale dm device: relock, rewrite the key file, unlock, retry mount
                if ¬env.tempKey2Ok then
                  (.error .tempFileError, [.mount clearDev, .lock loopDev])
                else if env.unlock2.ok then
                  match findPrefixNum "/dev/dm-".data env.unlock2.out with
                  | none =>
                    (.error (.mountError "unlock".data
                        "could not parse cleartext device".data),
                     [.mount clearDev, .lock loopDev, .unlock loopDev])
                  | some clear2 =>
                    if env.mount2.ok then
                      ((parseMountPoint env.mount2.out).map (clear2, ·),
                       [.mount clearDev, .lock loopDev, .unlock loopDev, .mount clear2])
                    else
                      (.error (.mountError "mount".data env.mount2.out),
                       [.mount clearDev, .lock loopDev, .unlock loopDev, .mount clear2])
                else
                  (.error (.mountError "unlock".data env.unlock2.out),
                   [.mount clearDev, .lock loopDev, .unlock loopDev])
              else (.error (.mountError "mount".data env.mount1.out), [.mount clearDev])
            else (.ok (clearDev, mp0), [])
          match mountStep with
          | (.error e, tr3) => (.error e, tr1 ++ tr2 ++ tr3)
          | (.ok (clearFin, mp), tr3) =>
            (.ok ⟨loopDev, clearFin, mp, realPath⟩, tr1 ++ tr2 ++ tr3)

/-- Model of `UnmountRetryCount` (constants.go). -/
def UnmountRetryCount : Nat := 3

/-- Environment of one unmount invocation: `sync` outcome (ignored), the two
unmount call sites, the lock attempts by index, and loop-delete. -/
structure UnmountEnv where
  syncOk : Bool
  unmountRes : ExecOut
  unmountForce : ExecOut
  lockTries : Nat → ExecOut
  loopDeleteRes : ExecOut

/-- The `udisksctl lock` retry loop: attempt `i`, and on failure retry while
attempts remain (sleeping between attempts); returns the last attempt's
outcome and the calls made. -/
def lockLoop (env : UnmountEnv) (dev : Str) : Nat → Nat → ExecOut × List UCall
  | _, 0 => (⟨true, []⟩, [])
  | i, n + 1 =>
    let r := env.lockTries i
    if r.ok then (r, [.lock dev])
    else
      match n with
      | 0 => (r, [.lock dev])
      | Nat.succ _ =>
        let (r', tr) := lockLoop env dev (i + 1) n
        (r', .lock dev :: tr)

/-- Model of `udisksUnmountBottle`: nil is a no-op; otherwise sync (failure ignored),
unmount with a forced fallback, lock with the bounded retry loop, and
loop-delete — each step skipped when its device field is empty. -/
def udisksUnmountBottle (env : UnmountEnv) (info? : Option MountInfo) :
    Except MountErr Unit × List UCall :=
  match info? with
  | none => (.ok (), [])
  | some info =>
    let trSync : List UCall :=
      if info.MountPoint ≠ [] then [.sync info.MountPoint] else []
    let unmountStep : Except MountErr Unit × List UCall :=
      if info.CleartextDevice ≠ [] then
        if env.unmountRes.ok then (.ok (), [.unmount info.CleartextDevice false])
        else if env.unmountForce.ok then
          (.ok (), [.unmount info.CleartextDevice false, .unmount info.CleartextDevice true])
        else
          (.error (.mountError "unmount".data
             (env.unmountRes.out ++ "; force: ".data ++ env.unmountForce.out)),
           [.unmount info.CleartextDevice false, .unmount info.CleartextDevice true])
      else (.ok (), [])
    match unmountStep with
    | (.error e, tr1) => (.error e, trSync ++ tr1)
    | (.ok _, tr1) =>
      let lockStep : Except MountErr Unit × List UCall :=
        if info.LoopDevice ≠ [] then
          let (r, tr) := lockLoop env info.LoopDevice 0 UnmountRetryCount
          if r.ok then (.ok (), tr)
          else (.error (.mountError "lock".data r.out), tr)
        else (.ok (), [])
      match lockStep with
      | (.error e, tr2) => (.error e, trSync ++ tr1 ++ tr2)
      | (.ok _, tr2) =>
        let delStep : Except MountErr Unit × List UCall :=
          if info.LoopDevice ≠ [] then
            if env.loopDeleteRes.ok then (.ok (), [.loopDelete info.LoopDevice])
            else (.error (.mountError "loop-delete".data env.loopDeleteRes.out),
                  [.loopDelete info.LoopDevice])
          else (.ok (), [])
        match delStep with
        | (.error e, tr3) => (.error e, trSync ++ tr1 ++ tr2 ++ tr3)
        | (.ok _, tr3) => (.ok (), trSync ++ tr1 ++ tr2 ++ tr3)

/-! ## Bottle management — identity hashing, deletion, creation

`filepath.Abs` depends on the process working directory, so it enters the
model as a function `absOf : Str → Option Str` (`none` is the error case, on
which `getBottleHash` falls back to the raw argument). The filesystem effects
of delete/create are abstracted to the presence of the two files the claims
are about (the backing bottle file and its config file). -/

/-- Model of `getBottleHash`: the first 12 hex characters of the SHA-256 of the
absolute path (the raw argument when `filepath.Abs` fails). -/
def getBottleHash (absOf : Str → Option Str) (bottle : Str) : Str :=
  let realPath := (absOf bottle).getD bottle
  (hexEncode (sha256Bytes (utf8Encode realPath))).take 12

/-- Model of `getMapperName`: fixed prefix plus the identity hash. -/
def getMapperName (absOf : Str → Option Str) (bottle : Str) : Str :=
  "bottle-".data ++ getBottleHash absOf bottle

/-- Model of `getConfigPath`: `filepath.Join(configDir, hash + ".conf")`. -/
def getConfigPath (absOf : Str → Option Str) (configDir bottle : Str) : Str :=
  configDir ++ '/' :: (getBottleHash absOf bottle ++ ".conf".data)

/-- Presence of the two on-disk artifacts of one bottle. -/
structure FsState where
  bottleFile : Bool
  configFile : Bool
deriving DecidableEq, Repr

/-- Environment of one `deleteBottle` call: the loop-device probe for the
bottle file and the outcomes of the two `os.Remove` calls. -/
structure DeleteEnv where
  loopForFile : Str
  removeBottleOk : Bool
  removeConfigOk : Bool

/-- The error values of the bottle-management module (an `os.Remove` failure
is passed through as-is). -/
inductive BottleErr
  | bottleError (op msg : Str)
  | osError
deriving DecidableEq, Repr

/-- Model of `errBottleMounted`. -/
def errBottleMounted : BottleErr :=
  .bottleError "bottle".data "currently mounted - close any running apps first".data

/-- Model of `deleteBottle`: refuse when the file is loop-attached; otherwise remove
the bottle file (failure surfaced) and the config file (failure ignored). -/
def deleteBottle (env : DeleteEnv) (fs : FsState) : Except BottleErr Unit × FsState :=
  if env.loopForFile ≠ [] then (.error errBottleMounted, fs)
  else if ¬env.removeBottleOk then (.error .osError, fs)
  else
    let fs1 : FsState := { fs with bottleFile := false }
    if env.removeConfigOk then (.ok (), { fs1 with configFile := false })
    else (.ok (), fs1)

/-- Environment of one bottle-creation call: whether `os.Stat` finds the file
already present, `filepath.Abs`, and the outcome of each external step (the
`.bottle`-suffix and bottle-directory path normalization is pure string
bookkeeping and does not affect which files exist). -/
structure CreateEnv where
  statExists : Bool
  absOk : Bool
  truncateRes : ExecOut
  luksFormat : ExecOut
  losetupOk : Bool
  luksOpen : ExecOut
  mkfs : ExecOut
  saveConfigOk : Bool

/-- Model of `createBottleBase`: validate, create the sparse file, LUKS-format, loop,
open, mkfs — removing the backing file before surfacing any failure past the
sparse-file creation (the loop device and mapper are also torn down on those
paths; they are kernel objects, not files, and are outside `FsState`). -/
def createBottleBase (env : CreateEnv) (bottle size : Str) :
    Except BottleErr Unit × FsState :=
  if bottle = [] then
    (.error (.bottleError "bottle".data "path required".data),
     ⟨env.statExists, false⟩)
  else if size = [] then
    (.error (.bottleError "bottle".data "size required".data),
     ⟨env.statExists, false⟩)
  else if env.statExists then
    (.error (.bottleError "bottle".data "already exists".data),
     ⟨env.statExists, false⟩)
  else if ¬env.absOk then
    (.error (.bottleError "path".data []), ⟨env.statExists, false⟩)
  else if ¬env.truncateRes.ok then
    (.error (.bottleError "create file".data env.truncateRes.out),
     ⟨env.statExists, false⟩)
  else if ¬env.luksFormat.ok then
    (.error (.bottleError "LUKS format".data env.luksFormat.out), ⟨false, false⟩)
  else if ¬env.losetupOk then
    (.error (.bottleError "loop setup".data []), ⟨false, false⟩)
  else if ¬env.luksOpen.ok then
    (.error (.bottleError "LUKS open".data env.luksOpen.out), ⟨false, false⟩)
  else if ¬env.mkfs.ok then
    (.error (.bottleError "mkfs".data env.mkfs.out), ⟨false, false⟩)
  else (.ok (), ⟨true, false⟩)

/-- Model of `CreateBottleWithYubiKey`: as `createBottleBase` with the secret-length
guard, the config written (atomically, fsynced) before the destructive format,
and both the backing file and the config removed on every later failure. -/
def CreateBottleWithYubiKey (env : CreateEnv) (bottle size : Str)
    (fido2Secret : List Nat) : Except BottleErr Unit × FsState :=
  if bottle = [] then
    (.error (.bottleError "bottle".data "path required".data),
     ⟨env.statExists, false⟩)
  else if size = [] then
    (.error (.bottleError "bottle".data "size required".data),
     ⟨env.statExists, false⟩)
  else if fido2Secret.length ≠ 32 then
    (.error (.bottleError "fido2".data "invalid secret length".data),
     ⟨env.statExists, false⟩)
  else if env.statExists then
    (.error (.bottleError "bottle".data "already exists".data),
     ⟨env.statExists, false⟩)
  else if ¬env.absOk then
    (.error (.bottleError "path".data []), ⟨env.statExists, false⟩)
  else if ¬env.truncateRes.ok then
    (.error (.bottleError "create file".data env.truncateRes.out),
     ⟨env.statExists, false⟩)
  else if ¬env.saveConfigOk then
    (.error (.bottleError "save config".data []), ⟨false, false⟩)
  else if ¬env.luksFormat.ok then
    (.error (.bottleError "luksFormat".data env.luksFormat.out), ⟨false, false⟩)
  else if ¬env.losetupOk then
    (.error (.bottleError "loop setup".data []), ⟨false, false⟩)
  else if ¬env.luksOpen.ok then
    (.error (.bottleError "cryptsetup open".data env.luksOpen.out), ⟨false, false⟩)
  else if ¬env.mkfs.ok then
    (.error (.bottleError "mkfs".data env.mkfs.out), ⟨false, false⟩)
  else (.ok (), ⟨true, true⟩)

/-! ## Claim C3 support: characters that survive Go quoting, and the
line-by-line behaviour of the config codec -/

def plainChar (c : Char) : Prop :=
  0x20 ≤ c.toNat ∧ c.toNat ≤ 0x7E ∧ c ≠ '"' ∧ c ≠ '\\'

instance : DecidablePred plainChar := fun c => by unfold plainChar; infer_instance

def plainStr (s : Str) : Prop := ∀ c ∈ s, plainChar c

instance (s : Str) : Decidable (plainStr s) := List.decidableBAll plainChar s

lemma quoteChar_plain {c : Char} (h : plainChar c) : quoteChar c = [c] := by
  obtain ⟨h1, h2, h3, h4⟩ := h
  unfold quoteChar
  rw [if_neg h3, if_neg h4, if_pos ⟨h1, h2⟩]

lemma flatMap_quoteChar_plain {s : Str} (h : plainStr s) : s.flatMap quoteChar = s := by
  induction s with
  | nil => rfl
  | cons c cs ih =>
    rw [List.flatMap_cons, quoteChar_plain (h c (by simp)),
        ih (fun c' hc' => h c' (by simp [hc']))]
    rfl

lemma goQuote_plain {s : Str} (h : plainStr s) : goQuote s = '"' :: (s ++ ['"']) := by
  unfold goQuote
  rw [flatMap_quoteChar_plain h]
  rfl

lemma hexDigit_ne_nl {n : Nat} (h : n < 16) : hexDigit n ≠ '\n' := by
  interval_cases n <;> decide

lemma nl_not_in_quoteChar (c : Char) : '\n' ∉ quoteChar c := by
  unfold quoteChar
  by_cases h1 : c = '"'
  · rw [if_pos h1]; decide
  rw [if_neg h1]
  by_cases h2 : c = '\\'
  · rw [if_pos h2]; decide
  rw [if_neg h2]
  by_cases h3 : 0x20 ≤ c.toNat ∧ c.toNat ≤ 0x7E
  · rw [if_pos h3]
    intro hm
    rw [List.mem_singleton] at hm
    rw [← hm] at h3
    exact absurd h3.1 (by decide)
  rw [if_neg h3]
  by_cases h4 : c = '\x07'
  · rw [if_pos h4]; decide
  rw [if_neg h4]
  by_cases h5 : c = '\x08'
  · rw [if_pos h5]; decide
  rw [if_neg h5]
  by_cases h6 : c = '\x0C'
  · rw [if_pos h6]; decide
  rw [if_neg h6]
  by_cases h7 : c = '\n'
  · rw [if_pos h7]; decide
  rw [if_neg h7]
  by_cases h8 : c = '\r'
  · rw [if_pos h8]; decide
  rw [if_neg h8]
  by_cases h9 : c = '\t'
  · rw [if_pos h9]; decide
  rw [if_neg h9]
  by_cases h10 : c = '\x0B'
  · rw [if_pos h10]; decide
  rw [if_neg h10]
  by_cases h11 : c.toNat < 0x80
  · rw [if_pos h11]
    intro hm
    simp only [List.mem_cons, List.not_mem_nil, or_false] at hm
    rcases hm with h | h | h | h
    · exact absurd h (by decide)
    · exact absurd h (by decide)
    · exact absurd h.symm (hexDigit_ne_nl (by omega))
    · exact absurd h.symm (hexDigit_ne_nl (by omega))
  · rw [if_neg h11]
    intro hm
    rw [List.mem_singleton] at hm
    rw [← hm] at h11
    exact h11 (by decide)

lemma nl_not_in_goQuote (s : Str) : '\n' ∉ goQuote s := by
  unfold goQuote
  intro hmem
  rcases List.mem_cons.mp hmem with h | h
  · exact absurd h.symm (by decide)
  rcases List.mem_append.mp h with h | h
  · obtain ⟨c, _, hc⟩ := List.mem_flatMap.mp h
    exact nl_not_in_quoteChar c hc
  · exact absurd (List.mem_singleton.mp h).symm (by decide)

lemma splitNl_line {l : Str} (rest : Str) (h : '\n' ∉ l) :
    splitNl (l ++ '\n' :: rest) = l :: splitNl rest := by
  induction l with
  | nil => simp [splitNl]
  | cons c cs ih =>
    have hc : c ≠ '\n' := fun hceq => h (by simp [hceq])
    have ih' := ih (fun hm => h (by simp [hm]))
    show splitNl (c :: (cs ++ '\n' :: rest)) = _
    rw [splitNl, if_neg hc, ih']

lemma load_lines_eq (ls : List Str) (h : ∀ l ∈ ls, '\n' ∉ l) :
    splitNl (ls.flatMap (· ++ ['\n'])) = ls ++ [[]] := by
  induction ls with
  | nil => rfl
  | cons l ls ih =>
    rw [List.flatMap_cons,
        show (l ++ ['\n']) ++ ls.flatMap (· ++ ['\n']) =
          l ++ '\n' :: ls.flatMap (· ++ ['\n']) by simp,
        splitNl_line _ (h l (by simp)), ih (fun l' hl' => h l' (by simp [hl']))]
    rfl


lemma trimLeftSpace_eq_self {s : Str} (h : ∀ c ∈ s.head?, isGoSpace c = false) :
    trimLeftSpace s = s := by
  cases s with
  | nil => rfl
  | cons c cs =>
    unfold trimLeftSpace
    rw [List.dropWhile_cons, h c rfl]
    rfl

lemma trimSpace_eq_self {s : Str} (h1 : ∀ c ∈ s.head?, isGoSpace c = false)
    (h2 : ∀ c ∈ s.getLast?, isGoSpace c = false) :
    trimSpace s = s := by
  unfold trimSpace
  rw [trimLeftSpace_eq_self h1]
  cases hrev : s.reverse with
  | nil =>
    rw [List.reverse_eq_nil_iff] at hrev
    simp [hrev]
  | cons c cs =>
    have hcl : s.getLast? = some c := by rw [← List.head?_reverse, hrev]; rfl
    rw [List.dropWhile_cons, h2 c hcl]
    simp [← hrev]

lemma splitEq2_concat {K : Str} (v : Str) (h : '=' ∉ K) :
    splitEq2 (K ++ '=' :: v) = some (K, v) := by
  induction K with
  | nil => rfl
  | cons c cs ih =>
    have hc : c ≠ '=' := fun hceq => h (by simp [hceq])
    have ih' := ih (fun hm => h (by simp [hm]))
    show splitEq2 (c :: (cs ++ '=' :: v)) = _
    rw [splitEq2, if_neg hc, ih']

lemma dropWhile_quote_cons_quote (l : Str) :
    List.dropWhile (fun x => x = '"') ('"' :: l) = List.dropWhile (fun x => x = '"') l := by
  simp [List.dropWhile_cons]

lemma dropWhile_quote_cons_plain {c : Char} (hc : c ≠ '"') (l : Str) :
    List.dropWhile (fun x => x = '"') (c :: l) = c :: l := by
  simp [List.dropWhile_cons, hc]

lemma trimQuotes_quoted {s : Str} (h : plainStr s) :
    trimQuotes ('"' :: (s ++ ['"'])) = s := by
  cases s with
  | nil => decide
  | cons c cs =>
    have hc : c ≠ '"' := (h c (by simp)).2.2.1
    unfold trimQuotes
    rw [dropWhile_quote_cons_quote]
    rw [List.cons_append]
    rw [dropWhile_quote_cons_plain hc]
    rw [show (c :: (cs ++ ['"']) : Str).reverse = '"' :: (c :: cs).reverse from by
      rw [← List.cons_append, List.reverse_append]; rfl]
    rw [dropWhile_quote_cons_quote]
    cases ht : (c :: cs).reverse with
    | nil => exact absurd ht (by simp)
    | cons d ds =>
      have hd : d ≠ '"' := (h d (by rw [← List.mem_reverse, ht]; simp)).2.2.1
      rw [dropWhile_quote_cons_plain hd, ← ht, List.reverse_reverse]


lemma applyLine_network (p : Permissions) (b : Bool) :
    applyLine p ("PREF_NETWORK=".data ++ boolToInt b) = { p with Network := b } := by
  cases b <;> rfl


lemma applyLine_lastApp (p : Permissions) {s : Str} (hs : plainStr s) :
    applyLine p ("PREF_LAST_APP=".data ++ goQuote s) = { p with LastApp := s } := by
  rw [goQuote_plain hs]
  have hhead : ∀ c ∈ ("PREF_LAST_APP=".data ++ ('"' :: (s ++ ['"'])) : Str).head?,
      isGoSpace c = false := by
    intro c hc
    rw [show ("PREF_LAST_APP=".data ++ ('"' :: (s ++ ['"'])) : Str).head? = some 'P' from rfl,
        Option.mem_def, Option.some_inj] at hc
    subst hc; decide
  have hlast : ∀ c ∈ ("PREF_LAST_APP=".data ++ ('"' :: (s ++ ['"'])) : Str).getLast?,
      isGoSpace c = false := by
    intro c hc
    rw [show ("PREF_LAST_APP=".data ++ ('"' :: (s ++ ['"'])) : Str).getLast? =
          (("PREF_LAST_APP=".data ++ ('"' :: s) : Str) ++ ['"']).getLast? from rfl,
        List.getLast?_concat, Option.mem_def, Option.some_inj] at hc
    subst hc; decide
  have h1 := trimSpace_eq_self hhead hlast
  have h2 : splitEq2 ("PREF_LAST_APP=".data ++ ('"' :: (s ++ ['"']))) =
      some ("PREF_LAST_APP".data, '"' :: (s ++ ['"'])) := by
    rw [show ("PREF_LAST_APP=".data ++ ('"' :: (s ++ ['"'])) : Str) =
          "PREF_LAST_APP".data ++ '=' :: ('"' :: (s ++ ['"'])) from rfl]
    exact splitEq2_concat _ (by decide)
  have hv1 : ∀ c ∈ ('"' :: (s ++ ['"']) : Str).head?, isGoSpace c = false := by
    intro c hc
    rw [show ('"' :: (s ++ ['"']) : Str).head? = some '"' from rfl,
        Option.mem_def, Option.some_inj] at hc
    subst hc; decide
  have hv2 : ∀ c ∈ ('"' :: (s ++ ['"']) : Str).getLast?, isGoSpace c = false := by
    intro c hc
    rw [show ('"' :: (s ++ ['"']) : Str).getLast? = (('"' :: s : Str) ++ ['"']).getLast? from rfl,
        List.getLast?_concat, Option.mem_def, Option.some_inj] at hc
    subst hc; decide
  have h3 := trimSpace_eq_self hv1 hv2
  have h4 := trimQuotes_quoted hs
  have h5 : trimSpace "PREF_LAST_APP".data = "PREF_LAST_APP".data := by decide
  have h0 : ("PREF_LAST_APP=".data ++ ('"' :: (s ++ ['"'])) : Str) ≠ [] := by
    rw [show ("PREF_LAST_APP=".data ++ ('"' :: (s ++ ['"'])) : Str) =
          'P' :: ("REF_LAST_APP=".data ++ ('"' :: (s ++ ['"']))) from rfl]
    exact List.cons_ne_nil _ _
  have hHd : ("PREF_LAST_APP=".data ++ ('"' :: (s ++ ['"'])) : Str).head? = some 'P' := rfl
  simp only [applyLine, h1, h2, h3, h4, h5, h0, hHd, if_neg, if_false]
  simp


lemma applyLine_audio (p : Permissions) (b : Bool) :
    applyLine p ("PREF_AUDIO=".data ++ boolToInt b) = { p with Audio := b } := by
  cases b <;> rfl

lemma applyLine_gpu (p : Permissions) (b : Bool) :
    applyLine p ("PREF_GPU=".data ++ boolToInt b) = { p with GPU := b } := by
  cases b <;> rfl

lemma applyLine_wayland (p : Permissions) (b : Bool) :
    applyLine p ("PREF_WAYLAND=".data ++ boolToInt b) = { p with Wayland := b } := by
  cases b <;> rfl

lemma applyLine_x11 (p : Permissions) (b : Bool) :
    applyLine p ("PREF_X11=".data ++ boolToInt b) = { p with X11 := b } := by
  cases b <;> rfl

lemma applyLine_camera (p : Permissions) (b : Bool) :
    applyLine p ("PREF_CAMERA=".data ++ boolToInt b) = { p with Camera := b } := by
  cases b <;> rfl

lemma applyLine_portals (p : Permissions) (b : Bool) :
    applyLine p ("PREF_PORTALS=".data ++ boolToInt b) = { p with Portals := b } := by
  cases b <;> rfl

lemma applyLine_bottleID (p : Permissions) {s : Str} (hs : plainStr s) :
    applyLine p ("FIDO2_BOTTLE_ID=".data ++ goQuote s) = { p with FIDO2BottleID := s } := by
  rw [goQuote_plain hs]
  have hhead : ∀ c ∈ ("FIDO2_BOTTLE_ID=".data ++ ('"' :: (s ++ ['"'])) : Str).head?,
      isGoSpace c = false := by
    intro c hc
    rw [show ("FIDO2_BOTTLE_ID=".data ++ ('"' :: (s ++ ['"'])) : Str).head? = some 'F' from rfl,
        Option.mem_def, Option.some_inj] at hc
    subst hc; decide
  have hlast : ∀ c ∈ ("FIDO2_BOTTLE_ID=".data ++ ('"' :: (s ++ ['"'])) : Str).getLast?,
      isGoSpace c = false := by
    intro c hc
    rw [show ("FIDO2_BOTTLE_ID=".data ++ ('"' :: (s ++ ['"'])) : Str).getLast? =
          (("FIDO2_BOTTLE_ID=".data ++ ('"' :: s) : Str) ++ ['"']).getLast? from rfl,
        List.getLast?_concat, Option.mem_def, Option.some_inj] at hc
    subst hc; decide
  have h1 := trimSpace_eq_self hhead hlast
  have h2 : splitEq2 ("FIDO2_BOTTLE_ID=".data ++ ('"' :: (s ++ ['"']))) =
      some ("FIDO2_BOTTLE_ID".data, '"' :: (s ++ ['"'])) := by
    rw [show ("FIDO2_BOTTLE_ID=".data ++ ('"' :: (s ++ ['"'])) : Str) =
          "FIDO2_BOTTLE_ID".data ++ '=' :: ('"' :: (s ++ ['"'])) from rfl]
    exact splitEq2_concat _ (by decide)
  have hv1 : ∀ c ∈ ('"' :: (s ++ ['"']) : Str).head?, isGoSpace c = false := by
    intro c hc
    rw [show ('"' :: (s ++ ['"']) : Str).head? = some '"' from rfl,
        Option.mem_def, Option.some_inj] at hc
    subst hc; decide
  have hv2 : ∀ c ∈ ('"' :: (s ++ ['"']) : Str).getLast?, isGoSpace c = false := by
    intro c hc
    rw [show ('"' :: (s ++ ['"']) : Str).getLast? = (('"' :: s : Str) ++ ['"']).getLast? from rfl,
        List.getLast?_concat, Option.mem_def, Option.some_inj] at hc
    subst hc; decide
  have h3 := trimSpace_eq_self hv1 hv2
  have h4 := trimQuotes_quoted hs
  have h5 : trimSpace "FIDO2_BOTTLE_ID".data = "FIDO2_BOTTLE_ID".data := by decide
  have h0 : ("FIDO2_BOTTLE_ID=".data ++ ('"' :: (s ++ ['"'])) : Str) ≠ [] := by
    rw [show ("FIDO2_BOTTLE_ID=".data ++ ('"' :: (s ++ ['"'])) : Str) =
          'F' :: ("IDO2_BOTTLE_ID=".data ++ ('"' :: (s ++ ['"']))) from rfl]
    exact List.cons_ne_nil _ _
  have hHd : ("FIDO2_BOTTLE_ID=".data ++ ('"' :: (s ++ ['"'])) : Str).head? = some 'F' := rfl
  simp only [applyLine, h1, h2, h3, h4, h5, h0, hHd, if_neg, if_false]
  simp


lemma applyLine_credID (p : Permissions) {s : Str} (hs : plainStr s) :
    applyLine p ("FIDO2_CREDENTIAL_ID=".data ++ goQuote s) = { p with FIDO2CredentialID := s } := by
  rw [goQuote_plain hs]
  have hhead : ∀ c ∈ ("FIDO2_CREDENTIAL_ID=".data ++ ('"' :: (s ++ ['"'])) : Str).head?,
      isGoSpace c = false := by
    intro c hc
    rw [show ("FIDO2_CREDENTIAL_ID=".data ++ ('"' :: (s ++ ['"'])) : Str).head? = some 'F' from rfl,
        Option.mem_def, Option.some_inj] at hc
    subst hc; decide
  have hlast : ∀ c ∈ ("FIDO2_CREDENTIAL_ID=".data ++ ('"' :: (s ++ ['"'])) : Str).getLast?,
      isGoSpace c = false := by
    intro c hc
    rw [show ("FIDO2_CREDENTIAL_ID=".data ++ ('"' :: (s ++ ['"'])) : Str).getLast? =
          (("FIDO2_CREDENTIAL_ID=".data ++ ('"' :: s) : Str) ++ ['"']).getLast? from rfl,
        List.getLast?_concat, Option.mem_def, Option.some_inj] at hc
    subst hc; decide
  have h1 := trimSpace_eq_self hhead hlast
  have h2 : splitEq2 ("FIDO2_CREDENTIAL_ID=".data ++ ('"' :: (s ++ ['"']))) =
      some ("FIDO2_CREDENTIAL_ID".data, '"' :: (s ++ ['"'])) := by
    rw [show ("FIDO2_CREDENTIAL_ID=".data ++ ('"' :: (s ++ ['"'])) : Str) =
          "FIDO2_CREDENTIAL_ID".data ++ '=' :: ('"' :: (s ++ ['"'])) from rfl]
    exact splitEq2_concat _ (by decide)
  have hv1 : ∀ c ∈ ('"' :: (s ++ ['"']) : Str).head?, isGoSpace c = false := by
    intro c hc
    rw [show ('"' :: (s ++ ['"']) : Str).head? = some '"' from rfl,
        Option.mem_def, Option.some_inj] at hc
    subst hc; decide
  have hv2 : ∀ c ∈ ('"' :: (s ++ ['"']) : Str).getLast?, isGoSpace c = false := by
    intro c hc
    rw [show ('"' :: (s ++ ['"']) : Str).getLast? = (('"' :: s : Str) ++ ['"']).getLast? from rfl,
        List.getLast?_concat, Option.mem_def, Option.some_inj] at hc
    subst hc; decide
  have h3 := trimSpace_eq_self hv1 hv2
  have h4 := trimQuotes_quoted hs
  have h5 : trimSpace "FIDO2_CREDENTIAL_ID".data = "FIDO2_CREDENTIAL_ID".data := by decide
  have h0 : ("FIDO2_CREDENTIAL_ID=".data ++ ('"' :: (s ++ ['"'])) : Str) ≠ [] := by
    rw [show ("FIDO2_CREDENTIAL_ID=".data ++ ('"' :: (s ++ ['"'])) : Str) =
          'F' :: ("IDO2_CREDENTIAL_ID=".data ++ ('"' :: (s ++ ['"']))) from rfl]
    exact List.cons_ne_nil _ _
  have hHd : ("FIDO2_CREDENTIAL_ID=".data ++ ('"' :: (s ++ ['"'])) : Str).head? = some 'F' := rfl
  simp only [applyLine, h1, h2, h3, h4, h5, h0, hHd, if_neg, if_false]
  simp


lemma applyLine_salt (p : Permissions) {s : Str} (hs : plainStr s) :
    applyLine p ("FIDO2_SALT=".data ++ goQuote s) = { p with FIDO2Salt := s } := by
  rw [goQuote_plain hs]
  have hhead : ∀ c ∈ ("FIDO2_SALT=".data ++ ('"' :: (s ++ ['"'])) : Str).head?,
      isGoSpace c = false := by
    intro c hc
    rw [show ("FIDO2_SALT=".data ++ ('"' :: (s ++ ['"'])) : Str).head? = some 'F' from rfl,
        Option.mem_def, Option.some_inj] at hc
    subst hc; decide
  have hlast : ∀ c ∈ ("FIDO2_SALT=".data ++ ('"' :: (s ++ ['"'])) : Str).getLast?,
      isGoSpace c = false := by
    intro c hc
    rw [show ("FIDO2_SALT=".data ++ ('"' :: (s ++ ['"'])) : Str).getLast? =
          (("FIDO2_SALT=".data ++ ('"' :: s) : Str) ++ ['"']).getLast? from rfl,
        List.getLast?_concat, Option.mem_def, Option.some_inj] at hc
    subst hc; decide
  have h1 := trimSpace_eq_self hhead hlast
  have h2 : splitEq2 ("FIDO2_SALT=".data ++ ('"' :: (s ++ ['"']))) =
      some ("FIDO2_SALT".data, '"' :: (s ++ ['"'])) := by
    rw [show ("FIDO2_SALT=".data ++ ('"' :: (s ++ ['"'])) : Str) =
          "FIDO2_SALT".data ++ '=' :: ('"' :: (s ++ ['"'])) from rfl]
    exact splitEq2_concat _ (by decide)
  have hv1 : ∀ c ∈ ('"' :: (s ++ ['"']) : Str).head?, isGoSpace c = false := by
    intro c hc
    rw [show ('"' :: (s ++ ['"']) : Str).head? = some '"' from rfl,
        Option.mem_def, Option.some_inj] at hc
    subst hc; decide
  have hv2 : ∀ c ∈ ('"' :: (s ++ ['"']) : Str).getLast?, isGoSpace c = false := by
    intro c hc
    rw [show ('"' :: (s ++ ['"']) : Str).getLast? = (('"' :: s : Str) ++ ['"']).getLast? from rfl,
        List.getLast?_concat, Option.mem_def, Option.some_inj] at hc
    subst hc; decide
  have h3 := trimSpace_eq_self hv1 hv2
  have h4 := trimQuotes_quoted hs
  have h5 : trimSpace "FIDO2_SALT".data = "FIDO2_SALT".data := by decide
  have h0 : ("FIDO2_SALT=".data ++ ('"' :: (s ++ ['"'])) : Str) ≠ [] := by
    rw [show ("FIDO2_SALT=".data ++ ('"' :: (s ++ ['"'])) : Str) =
          'F' :: ("IDO2_SALT=".data ++ ('"' :: (s ++ ['"']))) from rfl]
    exact List.cons_ne_nil _ _
  have hHd : ("FIDO2_SALT=".data ++ ('"' :: (s ++ ['"'])) : Str).head? = some 'F' := rfl
  simp only [applyLine, h1, h2, h3, h4, h5, h0, hHd, if_neg, if_false]
  simp


lemma applyLine_deviceHint (p : Permissions) {s : Str} (hs : plainStr s) :
    applyLine p ("FIDO2_DEVICE_HINT=".data ++ goQuote s) = { p with FIDO2DeviceHint := s } := by
  rw [goQuote_plain hs]
  have hhead : ∀ c ∈ ("FIDO2_DEVICE_HINT=".data ++ ('"' :: (s ++ ['"'])) : Str).head?,
      isGoSpace c = false := by
    intro c hc
    rw [show ("FIDO2_DEVICE_HINT=".data ++ ('"' :: (s ++ ['"'])) : Str).head? = some 'F' from rfl,
        Option.mem_def, Option.some_inj] at hc
    subst hc; decide
  have hlast : ∀ c ∈ ("FIDO2_DEVICE_HINT=".data ++ ('"' :: (s ++ ['"'])) : Str).getLast?,
      isGoSpace c = false := by
    intro c hc
    rw [show ("FIDO2_DEVICE_HINT=".data ++ ('"' :: (s ++ ['"'])) : Str).getLast? =
          (("FIDO2_DEVICE_HINT=".data ++ ('"' :: s) : Str) ++ ['"']).getLast? from rfl,
        List.getLast?_concat, Option.mem_def, Option.some_inj] at hc
    subst hc; decide
  have h1 := trimSpace_eq_self hhead hlast
  have h2 : splitEq2 ("FIDO2_DEVICE_HINT=".data ++ ('"' :: (s ++ ['"']))) =
      some ("FIDO2_DEVICE_HINT".data, '"' :: (s ++ ['"'])) := by
    rw [show ("FIDO2_DEVICE_HINT=".data ++ ('"' :: (s ++ ['"'])) : Str) =
          "FIDO2_DEVICE_HINT".data ++ '=' :: ('"' :: (s ++ ['"'])) from rfl]
    exact splitEq2_concat _ (by decide)
  have hv1 : ∀ c ∈ ('"' :: (s ++ ['"']) : Str).head?, isGoSpace c = false := by
    intro c hc
    rw [show ('"' :: (s ++ ['"']) : Str).head? = some '"' from rfl,
        Option.mem_def, Option.some_inj] at hc
    subst hc; decide
  have hv2 : ∀ c ∈ ('"' :: (s ++ ['"']) : Str).getLast?, isGoSpace c = false := by
    intro c hc
    rw [show ('"' :: (s ++ ['"']) : Str).getLast? = (('"' :: s : Str) ++ ['"']).getLast? from rfl,
        List.getLast?_concat, Option.mem_def, Option.some_inj] at hc
    subst hc; decide
  have h3 := trimSpace_eq_self hv1 hv2
  have h4 := trimQuotes_quoted hs
  have h5 : trimSpace "FIDO2_DEVICE_HINT".data = "FIDO2_DEVICE_HINT".data := by decide
  have h0 : ("FIDO2_DEVICE_HINT=".data ++ ('"' :: (s ++ ['"'])) : Str) ≠ [] := by
    rw [show ("FIDO2_DEVICE_HINT=".data ++ ('"' :: (s ++ ['"'])) : Str) =
          'F' :: ("IDO2_DEVICE_HINT=".data ++ ('"' :: (s ++ ['"']))) from rfl]
    exact List.cons_ne_nil _ _
  have hHd : ("FIDO2_DEVICE_HINT=".data ++ ('"' :: (s ++ ['"'])) : Str).head? = some 'F' := rfl
  simp only [applyLine, h1, h2, h3, h4, h5, h0, hHd, if_neg, if_false]
  simp



lemma noNl_boolLine {pre : Str} (b : Bool) (h : '\n' ∉ pre) :
    '\n' ∉ pre ++ boolToInt b := by
  intro hm
  rcases List.mem_append.mp hm with h1 | h1
  · exact h h1
  · cases b <;> simp [boolToInt] at h1

lemma noNl_quotedLine {pre : Str} (s : Str) (h : '\n' ∉ pre) :
    '\n' ∉ pre ++ goQuote s := by
  intro hm
  rcases List.mem_append.mp hm with h1 | h1
  · exact h h1
  · exact nl_not_in_goQuote s h1

lemma noNl_savedLines (p : Permissions) : ∀ l ∈ savedLines p, '\n' ∉ l := by
  intro l hl
  unfold savedLines at hl
  simp only [List.mem_append, List.mem_cons, List.not_mem_nil, or_false] at hl
  rcases hl with ((((rfl | rfl | rfl | rfl | rfl | rfl | rfl | rfl) | hl) | hl) | hl) | hl
  · exact noNl_boolLine _ (by decide)
  · exact noNl_boolLine _ (by decide)
  · exact noNl_boolLine _ (by decide)
  · exact noNl_boolLine _ (by decide)
  · exact noNl_boolLine _ (by decide)
  · exact noNl_boolLine _ (by decide)
  · exact noNl_boolLine _ (by decide)
  · exact noNl_quotedLine _ (by decide)
  · by_cases hc : p.FIDO2BottleID ≠ []
    · rw [if_pos hc] at hl
      obtain rfl := List.mem_singleton.mp hl
      exact noNl_quotedLine _ (by decide)
    · rw [if_neg hc] at hl
      exact absurd hl (List.not_mem_nil _)
  · by_cases hc : p.FIDO2CredentialID ≠ []
    · rw [if_pos hc] at hl
      obtain rfl := List.mem_singleton.mp hl
      exact noNl_quotedLine _ (by decide)
    · rw [if_neg hc] at hl
      exact absurd hl (List.not_mem_nil _)
  · by_cases hc : p.FIDO2Salt ≠ []
    · rw [if_pos hc] at hl
      obtain rfl := List.mem_singleton.mp hl
      exact noNl_quotedLine _ (by decide)
    · rw [if_neg hc] at hl
      exact absurd hl (List.not_mem_nil _)
  · by_cases hc : p.FIDO2DeviceHint ≠ []
    · rw [if_pos hc] at hl
      obtain rfl := List.mem_singleton.mp hl
      exact noNl_quotedLine _ (by decide)
    · rw [if_neg hc] at hl
      exact absurd hl (List.not_mem_nil _)


lemma foldl_applyLine_emptyLine (q : Permissions) : List.foldl applyLine q [[]] = q := rfl

lemma boolToInt_length (b : Bool) : (boolToInt b).length = 1 := by
  cases b <;> rfl

/-- Every line the config writer emits for string fields within the per-field
length bounds fits in the scanner's 64 KiB buffer together with its newline
(the bound for each field is the buffer size minus its key, the `=`, and the
two wrapping quotes). -/
lemma savedLines_fit (p : Permissions)
    (hla : plainStr p.LastApp) (hfb : plainStr p.FIDO2BottleID)
    (hfc : plainStr p.FIDO2CredentialID) (hfs : plainStr p.FIDO2Salt)
    (hfd : plainStr p.FIDO2DeviceHint)
    (hlaLen : p.LastApp.length < 65520)
    (hfbLen : p.FIDO2BottleID.length < 65518)
    (hfcLen : p.FIDO2CredentialID.length < 65514)
    (hfsLen : p.FIDO2Salt.length < 65523)
    (hfdLen : p.FIDO2DeviceHint.length < 65516) :
    ∀ l ∈ savedLines p ++ [[]], l.length < maxScanTokenSize := by
  intro l hl
  rcases List.mem_append.mp hl with hl | hl
  case inr =>
    obtain rfl := List.mem_singleton.mp hl
    decide
  unfold savedLines at hl
  simp only [List.mem_append, List.mem_cons, List.not_mem_nil, or_false] at hl
  rcases hl with ((((rfl | rfl | rfl | rfl | rfl | rfl | rfl | rfl) | hl) | hl) | hl) | hl
  · simp [List.length_append, boolToInt_length, maxScanTokenSize]
  · simp [List.length_append, boolToInt_length, maxScanTokenSize]
  · simp [List.length_append, boolToInt_length, maxScanTokenSize]
  · simp [List.length_append, boolToInt_length, maxScanTokenSize]
  · simp [List.length_append, boolToInt_length, maxScanTokenSize]
  · simp [List.length_append, boolToInt_length, maxScanTokenSize]
  · simp [List.length_append, boolToInt_length, maxScanTokenSize]
  · rw [goQuote_plain hla]
    simp only [List.length_append, List.length_cons, maxScanTokenSize]
    simp
    omega
  · by_cases hc : p.FIDO2BottleID ≠ []
    · rw [if_pos hc] at hl
      obtain rfl := List.mem_singleton.mp hl
      rw [goQuote_plain hfb]
      simp only [List.length_append, List.length_cons, maxScanTokenSize]
      simp
      omega
    · rw [if_neg hc] at hl
      exact absurd hl (List.not_mem_nil _)
  · by_cases hc : p.FIDO2CredentialID ≠ []
    · rw [if_pos hc] at hl
      obtain rfl := List.mem_singleton.mp hl
      rw [goQuote_plain hfc]
      simp only [List.length_append, List.length_cons, maxScanTokenSize]
      simp
      omega
    · rw [if_neg hc] at hl
      exact absurd hl (List.not_mem_nil _)
  · by_cases hc : p.FIDO2Salt ≠ []
    · rw [if_pos hc] at hl
      obtain rfl := List.mem_singleton.mp hl
      rw [goQuote_plain hfs]
      simp only [List.length_append, List.length_cons, maxScanTokenSize]
      simp
      omega
    · rw [if_neg hc] at hl
      exact absurd hl (List.not_mem_nil _)
  · by_cases hc : p.FIDO2DeviceHint ≠ []
    · rw [if_pos hc] at hl
      obtain rfl := List.mem_singleton.mp hl
      rw [goQuote_plain hfd]
      simp only [List.length_append, List.length_cons, maxScanTokenSize]
      simp
      omega
    · rw [if_neg hc] at hl
      exact absurd hl (List.not_mem_nil _)

lemma foldl_optBottleID (q : Permissions) {s : Str} (hs : plainStr s) :
    List.foldl applyLine q (if s ≠ [] then ["FIDO2_BOTTLE_ID=".data ++ goQuote s] else []) =
      { q with FIDO2BottleID := if s ≠ [] then s else q.FIDO2BottleID } := by
  by_cases h : s = []
  · simp [h]
  · rw [if_pos h, List.foldl_cons, applyLine_bottleID _ hs, List.foldl_nil, if_pos h]

lemma foldl_optCredID (q : Permissions) {s : Str} (hs : plainStr s) :
    List.foldl applyLine q (if s ≠ [] then ["FIDO2_CREDENTIAL_ID=".data ++ goQuote s] else []) =
      { q with FIDO2CredentialID := if s ≠ [] then s else q.FIDO2CredentialID } := by
  by_cases h : s = []
  · simp [h]
  · rw [if_pos h, List.foldl_cons, applyLine_credID _ hs, List.foldl_nil, if_pos h]

lemma foldl_optSalt (q : Permissions) {s : Str} (hs : plainStr s) :
    List.foldl applyLine q (if s ≠ [] then ["FIDO2_SALT=".data ++ goQuote s] else []) =
      { q with FIDO2Salt := if s ≠ [] then s else q.FIDO2Salt } := by
  by_cases h : s = []
  · simp [h]
  · rw [if_pos h, List.foldl_cons, applyLine_salt _ hs, List.foldl_nil, if_pos h]

lemma foldl_optDeviceHint (q : Permissions) {s : Str} (hs : plainStr s) :
    List.foldl applyLine q (if s ≠ [] then ["FIDO2_DEVICE_HINT=".data ++ goQuote s] else []) =
      { q with FIDO2DeviceHint := if s ≠ [] then s else q.FIDO2DeviceHint } := by
  by_cases h : s = []
  · simp [h]
  · rw [if_pos h, List.foldl_cons, applyLine_deviceHint _ hs, List.foldl_nil, if_pos h]

/-- C3 (amended) — Config round-trip for the representable values: for every
PermissionSet whose string fields (last launched app and the four FIDO2
fields) consist of printable ASCII characters other than the double quote and
the backslash — exactly the characters `strconv.Quote` emits unchanged — and
are short enough that each saved `KEY="value"` line plus its newline fits the
scanner's 64 KiB buffer (65520 characters for the last-app field, 65518 /
65514 / 65523 / 65516 for bottle id, credential id, salt and device hint),
saving and then loading yields a value equal in every field to the original.
The claim as stated over arbitrary field strings is refuted by
`c3_roundtrip_counterexample`; a longer field is silently dropped by the
scanner's `ErrTooLong` abort together with every later line. -/
theorem c3_roundtrip_plain (p : Permissions)
    (hla : plainStr p.LastApp) (hfb : plainStr p.FIDO2BottleID)
    (hfc : plainStr p.FIDO2CredentialID) (hfs : plainStr p.FIDO2Salt)
    (hfd : plainStr p.FIDO2DeviceHint)
    (hlaLen : p.LastApp.length < 65520)
    (hfbLen : p.FIDO2BottleID.length < 65518)
    (hfcLen : p.FIDO2CredentialID.length < 65514)
    (hfsLen : p.FIDO2Salt.length < 65523)
    (hfdLen : p.FIDO2DeviceHint.length < 65516) :
    loadPermissions (saveContent p) = p := by
  obtain ⟨n, a, g, w, x, cam, po, la, fb, fc, fsa, fd⟩ := p
  simp only at hla hfb hfc hfs hfd hlaLen hfbLen hfcLen hfsLen hfdLen
  unfold loadPermissions scannedLines saveContent
  rw [load_lines_eq _ (noNl_savedLines _)]
  rw [List.takeWhile_eq_self_iff.mpr (fun l hl =>
    decide_eq_true (savedLines_fit _ hla hfb hfc hfs hfd
      hlaLen hfbLen hfcLen hfsLen hfdLen l hl))]
  rw [List.foldl_append, foldl_applyLine_emptyLine]
  unfold savedLines
  rw [List.foldl_append, List.foldl_append, List.foldl_append, List.foldl_append]
  rw [List.foldl_cons, applyLine_network]
  rw [List.foldl_cons, applyLine_audio]
  rw [List.foldl_cons, applyLine_gpu]
  rw [List.foldl_cons, applyLine_wayland]
  rw [List.foldl_cons, applyLine_x11]
  rw [List.foldl_cons, applyLine_camera]
  rw [List.foldl_cons, applyLine_portals]
  rw [List.foldl_cons, applyLine_lastApp _ hla]
  rw [List.foldl_nil]
  rw [foldl_optBottleID _ hfb, foldl_optCredID _ hfc, foldl_optSalt _ hfs,
      foldl_optDeviceHint _ hfd]
  by_cases h1 : fb = [] <;> by_cases h2 : fc = [] <;>
    by_cases h3 : fsa = [] <;> by_cases h4 : fd = [] <;>
      simp [h1, h2, h3, h4, defaultPermissions]


def c3Bad : Permissions := { defaultPermissions with LastApp := ['"'] }

/-- C3 counterexample: a PermissionSet whose `lastLaunchedApp` is the single
double-quote character does not survive the save/load round-trip — the saved
line quotes it as backslash-quote, and the loader only strips outer quote
characters, yielding a lone backslash back. -/
theorem c3_roundtrip_counterexample :
    loadPermissions (saveContent c3Bad) ≠ c3Bad := by decide

def c3Good : Permissions :=
  { Network := true, Audio := false, GPU := true, Wayland := false, X11 := true,
    Camera := true, Portals := false, LastApp := "org.mozilla.firefox".data,
    FIDO2BottleID := "c29tZUJvdHRsZUlE".data, FIDO2CredentialID := "Y3JlZA==".data,
    FIDO2Salt := "c2FsdA==".data, FIDO2DeviceHint := "/dev/hidraw3".data }

/-- C3 witness: a concrete PermissionSet with plain-ASCII fields
round-trips. -/
theorem c3_roundtrip_plain_witness : loadPermissions (saveContent c3Good) = c3Good :=
  c3_roundtrip_plain c3Good (by decide) (by decide) (by decide) (by decide) (by decide)
    (by decide) (by decide) (by decide) (by decide) (by decide)

/-! ## Claim theorems -/

/-- C1 — Already-mounted short-circuit: when the probes report a complete
chain (loop device, cleartext device, mount point all present), both mount
functions return exactly the probed `MountInfo` and perform no mutating
external-tool call; the functions are deterministic in the environment, so a
second invocation in succession returns the identical `MountInfo` and again an
empty mutating-call trace. -/
theorem c1_already_mounted_short_circuit (env : MountEnv)
    (bottle password realPath : Str) (secret : List Nat)
    (habs : env.absOf bottle = some realPath)
    (hl : env.loopForFile realPath ≠ [])
    (hc : env.cleartextForLoop (env.loopForFile realPath) ≠ [])
    (hm : env.mountForDevice (env.cleartextForLoop (env.loopForFile realPath)) ≠ []) :
    udisksMountBottle env bottle password =
      (.ok ⟨env.loopForFile realPath, env.cleartextForLoop (env.loopForFile realPath),
            env.mountForDevice (env.cleartextForLoop (env.loopForFile realPath)),
            realPath⟩, []) ∧
    udisksMountBottleFIDO2 env bottle secret =
      (.ok ⟨env.loopForFile realPath, env.cleartextForLoop (env.loopForFile realPath),
            env.mountForDevice (env.cleartextForLoop (env.loopForFile realPath)),
            realPath⟩, []) := by
  unfold udisksMountBottle udisksMountBottleFIDO2
  rw [habs]
  simp [hl, hc, hm]

def c1Env : MountEnv :=
  { absOf := fun _ => some "/home/u/test.bottle".data
    loopForFile := fun _ => "/dev/loop7".data
    cleartextForLoop := fun _ => "/dev/dm-3".data
    mountForDevice := fun _ => "/run/media/u/test".data
    loopSetup := ⟨true, []⟩, unlock1 := ⟨true, []⟩, mount1 := ⟨true, []⟩
    unlock2 := ⟨true, []⟩, mount2 := ⟨true, []⟩
    tempKeyOk := true, tempKey2Ok := true }

theorem c1_witness :
    udisksMountBottle c1Env "test.bottle".data "pw".data =
      (.ok ⟨"/dev/loop7".data, "/dev/dm-3".data, "/run/media/u/test".data,
            "/home/u/test.bottle".data⟩, []) ∧
    udisksMountBottleFIDO2 c1Env "test.bottle".data [] =
      (.ok ⟨"/dev/loop7".data, "/dev/dm-3".data, "/run/media/u/test".data,
            "/home/u/test.bottle".data⟩, []) :=
  c1_already_mounted_short_circuit c1Env "test.bottle".data "pw".data
    "/home/u/test.bottle".data [] rfl (by decide) (by decide) (by decide)

/-- C2 — Stale-mapping recovery: if the first mount attempt fails with the
"Error looking up object for device" diagnostic while a loop device is known,
both mount functions lock, re-unlock (re-parsing the cleartext device from the
unlock output), and retry the mount exactly once; when that single retry also
fails, its diagnostic is surfaced verbatim and the mutating-call trace shows
exactly two mount attempts, one lock, and one re-unlock — no further cycle. -/
theorem c2_stale_mount_recovery (env : MountEnv)
    (bottle password realPath clear2 : Str) (secret : List Nat)
    (habs : env.absOf bottle = some realPath)
    (hl : env.loopForFile realPath ≠ [])
    (hc : env.cleartextForLoop (env.loopForFile realPath) ≠ [])
    (hm : env.mountForDevice (env.cleartextForLoop (env.loopForFile realPath)) = [])
    (hm1 : env.mount1.ok = false)
    (hstale : goContains env.mount1.out "Error looking up object for device".data = true)
    (htk : env.tempKey2Ok = true)
    (hu2 : env.unlock2.ok = true)
    (hparse : findPrefixNum "/dev/dm-".data env.unlock2.out = some clear2)
    (hm2 : env.mount2.ok = false) :
    udisksMountBottle env bottle password =
      (.error (.mountError "mount".data env.mount2.out),
       [.mount (env.cleartextForLoop (env.loopForFile realPath)),
        .lock (env.loopForFile realPath),
        .unlock (env.loopForFile realPath),
        .mount clear2]) ∧
    udisksMountBottleFIDO2 env bottle secret =
      (.error (.mountError "mount".data env.mount2.out),
       [.mount (env.cleartextForLoop (env.loopForFile realPath)),
        .lock (env.loopForFile realPath),
        .unlock (env.loopForFile realPath),
        .mount clear2]) := by
  unfold udisksMountBottle udisksMountBottleFIDO2
  rw [habs]
  simp [hl, hc, hm, hm1, hstale, htk, hu2, hparse, hm2]

def c2Env : MountEnv :=
  { absOf := fun _ => some "/home/u/test.bottle".data
    loopForFile := fun _ => "/dev/loop7".data
    cleartextForLoop := fun _ => "/dev/dm-3".data
    mountForDevice := fun _ => []
    loopSetup := ⟨true, []⟩, unlock1 := ⟨true, []⟩
    mount1 := ⟨false, "Error looking up object for device /dev/dm-3".data⟩
    unlock2 := ⟨true, "Unlocked /dev/loop7 as /dev/dm-4.".data⟩
    mount2 := ⟨false, "GDBus.Error: mount failed again".data⟩
    tempKeyOk := true, tempKey2Ok := true }

theorem c2_witness :
    udisksMountBottle c2Env "test.bottle".data "pw".data =
      (.error (.mountError "mount".data "GDBus.Error: mount failed again".data),
       [.mount "/dev/dm-3".data, .lock "/dev/loop7".data, .unlock "/dev/loop7".data,
        .mount "/dev/dm-4".data]) ∧
    udisksMountBottleFIDO2 c2Env "test.bottle".data [] =
      (.error (.mountError "mount".data "GDBus.Error: mount failed again".data),
       [.mount "/dev/dm-3".data, .lock "/dev/loop7".data, .unlock "/dev/loop7".data,
        .mount "/dev/dm-4".data]) :=
  c2_stale_mount_recovery c2Env "test.bottle".data "pw".data
    "/home/u/test.bottle".data "/dev/dm-4".data [] rfl (by decide) (by decide) rfl rfl
    (by decide) rfl rfl (by decide) rfl

/-- C5 — Wrong-credential classification at the unlock step: the password
variant returns the identity-compared `errWrongPassword` sentinel exactly when
the diagnostic text contains one of the three known wrong-key phrases, and
surfaces the diagnostic verbatim as a fatal `unlock` error otherwise; the
FIDO2 variant maps the same phrase test to the fixed wrong-YubiKey message,
and is likewise fatal-verbatim otherwise. -/
theorem c5_wrong_credential_classification (env : MountEnv)
    (bottle password realPath : Str) (secret : List Nat)
    (habs : env.absOf bottle = some realPath)
    (hl : env.loopForFile realPath ≠ [])
    (hc : env.cleartextForLoop (env.loopForFile realPath) = [])
    (hfail : env.unlock1.ok = false)
    (htk : env.tempKeyOk = true) :
    ((udisksMountBottle env bottle password).1 = .error errWrongPassword ↔
      (goContains env.unlock1.out "Failed to activate device".data ||
       goContains env.unlock1.out "No key available".data ||
       goContains env.unlock1.out "passphrase".data) = true) ∧
    ((goContains env.unlock1.out "Failed to activate device".data ||
      goContains env.unlock1.out "No key available".data ||
      goContains env.unlock1.out "passphrase".data) = false →
      (udisksMountBottle env bottle password).1 =
        .error (.mountError "unlock".data env.unlock1.out)) ∧
    ((goContains env.unlock1.out "Failed to activate device".data ||
      goContains env.unlock1.out "No key available".data ||
      goContains env.unlock1.out "passphrase".data) = true →
      (udisksMountBottleFIDO2 env bottle secret).1 =
        .error (.mountError "unlock".data
          "wrong YubiKey - use the key that created this bottle".data)) ∧
    ((goContains env.unlock1.out "Failed to activate device".data ||
      goContains env.unlock1.out "No key available".data ||
      goContains env.unlock1.out "passphrase".data) = false →
      (udisksMountBottleFIDO2 env bottle secret).1 =
        .error (.mountError "unlock".data env.unlock1.out)) := by
  unfold udisksMountBottle udisksMountBottleFIDO2
  rw [habs]
  by_cases hph : (goContains env.unlock1.out "Failed to activate device".data ||
      goContains env.unlock1.out "No key available".data ||
      goContains env.unlock1.out "passphrase".data) = true
  · simp [hl, hc, hfail, htk, hph, errWrongPassword]
  · simp only [Bool.not_eq_true] at hph
    simp [hl, hc, hfail, htk, hph, errWrongPassword]

def c5Env : MountEnv :=
  { absOf := fun _ => some "/home/u/test.bottle".data
    loopForFile := fun _ => "/dev/loop7".data
    cleartextForLoop := fun _ => []
    mountForDevice := fun _ => []
    loopSetup := ⟨true, []⟩
    unlock1 := ⟨false, "Error unlocking /dev/loop7: Failed to activate device: No key available with this passphrase".data⟩
    mount1 := ⟨true, []⟩, unlock2 := ⟨true, []⟩, mount2 := ⟨true, []⟩
    tempKeyOk := true, tempKey2Ok := true }

theorem c5_witness :
    (udisksMountBottle c5Env "test.bottle".data "pw".data).1 =
      .error errWrongPassword :=
  ((c5_wrong_credential_classification c5Env "test.bottle".data "pw".data
      "/home/u/test.bottle".data [] rfl (by decide) rfl rfl rfl).1).mpr (by decide)

/-- C6 — Unmount safety: the unmount sequence on a nil state, or on a
state whose mount point, cleartext device and loop device are all empty,
returns success and performs no external call (not even the sync). -/
theorem c6_unmount_nil_empty_noop (env : UnmountEnv) (path : Str) :
    udisksUnmountBottle env none = (.ok (), []) ∧
    udisksUnmountBottle env (some ⟨[], [], [], path⟩) = (.ok (), []) := by
  constructor
  · rfl
  · simp [udisksUnmountBottle]

/-- C4 — The FIDO2 detector's all-or-nothing invariant: all three
identifying fields present is FIDO2 mode, none present is Password mode (both
error-free), and a count of exactly one or exactly two non-empty fields is the
corrupted-configuration error — never a Password-mode classification. -/
theorem c4_fido2_detector_all_or_nothing (p : Permissions) :
    ((p.FIDO2BottleID ≠ [] ∧ p.FIDO2CredentialID ≠ [] ∧ p.FIDO2Salt ≠ []) →
      IsFIDO2Bottle p = .ok true) ∧
    ((p.FIDO2BottleID = [] ∧ p.FIDO2CredentialID = [] ∧ p.FIDO2Salt = []) →
      IsFIDO2Bottle p = .ok false) ∧
    (∀ n, n = (if p.FIDO2BottleID = [] then 0 else 1) +
              (if p.FIDO2CredentialID = [] then 0 else 1) +
              (if p.FIDO2Salt = [] then 0 else 1) →
      (n = 1 ∨ n = 2) →
      IsFIDO2Bottle p = .error "config corrupted: FIDO2 data incomplete".data) := by
  by_cases hb : p.FIDO2BottleID = [] <;>
    by_cases hc : p.FIDO2CredentialID = [] <;>
      by_cases hs : p.FIDO2Salt = [] <;>
        simp_all [IsFIDO2Bottle]

def c4Perms : Permissions :=
  { defaultPermissions with FIDO2BottleID := "c29tZUJvdHRsZUlE".data }

theorem c4_witness :
    IsFIDO2Bottle c4Perms =
      .error "config corrupted: FIDO2 data incomplete".data :=
  (c4_fido2_detector_all_or_nothing c4Perms).2.2 1 (by decide) (Or.inl rfl)

/-- C8 — The hardware-key derive fails closed on response length: a
success is exactly the base64 decode of the response's last line and is 32
bytes long; with tool success and a well-formed five-line response, a decode
of any other length is rejected with that length (never truncated or padded),
and an undecodable last line is rejected as corrupt input. -/
theorem c8_fido2_secret_fail_closed (env : AssertEnv) :
    (∀ s, GetFIDO2Secret env = .ok s →
      s.length = 32 ∧
      b64Decode (trimSpace ((splitNl (trimSpace env.stdout)).getLast?.getD [])) = some s) ∧
    (∀ bs, env.tempOk = true → env.runOk = true →
      5 ≤ (splitNl (trimSpace env.stdout)).length →
      b64Decode (trimSpace ((splitNl (trimSpace env.stdout)).getLast?.getD [])) = some bs →
      bs.length ≠ 32 →
      GetFIDO2Secret env = .error (.badLength bs.length)) ∧
    (env.tempOk = true → env.runOk = true →
      5 ≤ (splitNl (trimSpace env.stdout)).length →
      b64Decode (trimSpace ((splitNl (trimSpace env.stdout)).getLast?.getD [])) = none →
      GetFIDO2Secret env = .error .decodeFailed) := by
  unfold GetFIDO2Secret
  by_cases ht : env.tempOk <;> by_cases hr : env.runOk <;>
    simp [ht, hr]
  · by_cases hlen : (splitNl (trimSpace env.stdout)).length < 5
    · simp only [if_pos hlen]
      refine ⟨by simp, fun bs h5 => absurd hlen (by omega), fun h5 => absurd hlen (by omega)⟩
    · simp only [if_neg hlen]
      constructor
      · intro s hs
        cases hd : b64Decode (trimSpace ((splitNl (trimSpace env.stdout)).getLast?.getD [])) with
        | none => rw [hd] at hs; exact absurd hs (by simp)
        | some bs =>
          rw [hd] at hs
          by_cases h32 : bs.length = 32
          · simp [h32] at hs; subst hs; exact ⟨h32, rfl⟩
          · simp [h32] at hs
      · constructor
        · intro bs _ hd h32
          rw [hd]
          simp [h32]
        · intro _ hd
          rw [hd]

def c8Env : AssertEnv :=
  { tempOk := true, runOk := true
    stdout := ("cdh-line\nrp-line\nsig-line\nauthdata-line\n" ++
               "AAAAAAAAAAAAAAAAAAAAAAAAAAAAAAAAAAAAAAAAAAA=").data
    stderr := [] }

theorem c8_witness :
    GetFIDO2Secret c8Env = .ok (List.replicate 32 0) ∧
    (List.replicate 32 (0 : Nat)).length = 32 :=
  ⟨rfl, ((c8_fido2_secret_fail_closed c8Env).1 (List.replicate 32 0) rfl).1⟩

/-- C9 — Deleting a loop-attached (mounted/busy) bottle is refused with
`errBottleMounted` and the filesystem state — the bottle file and its config
file — is returned unchanged. -/
theorem c9_delete_refused_when_mounted (env : DeleteEnv) (fs : FsState)
    (h : env.loopForFile ≠ []) :
    deleteBottle env fs = (.error errBottleMounted, fs) := by
  simp [deleteBottle, h]

def c9Env : DeleteEnv :=
  { loopForFile := "/dev/loop7".data, removeBottleOk := true, removeConfigOk := true }

theorem c9_witness :
    deleteBottle c9Env ⟨true, true⟩ = (.error errBottleMounted, ⟨true, true⟩) :=
  c9_delete_refused_when_mounted c9Env ⟨true, true⟩ (by decide)

/-- C10 — Creation is all-or-nothing on disk: starting from a bottle that
does not yet exist, whenever the sparse-file step succeeded and the creation
nevertheless returns an error, `createBottleBase` leaves no backing file
behind, and `CreateBottleWithYubiKey` leaves neither the backing file nor the
config file behind. -/
theorem c10_create_all_or_nothing (env : CreateEnv) (bottle size : Str)
    (secret : List Nat)
    (hstat : env.statExists = false) (htr : env.truncateRes.ok = true) :
    (∀ e fs, createBottleBase env bottle size = (.error e, fs) →
      fs.bottleFile = false) ∧
    (∀ e fs, CreateBottleWithYubiKey env bottle size secret = (.error e, fs) →
      fs = { bottleFile := false, configFile := false }) := by
  constructor
  · intro e fs h
    unfold createBottleBase at h
    rw [hstat, htr] at h
    by_cases h1 : bottle = []
    · rw [if_pos h1] at h; injection h with ha hb; rw [← hb]
    rw [if_neg h1] at h
    by_cases h2 : size = []
    · rw [if_pos h2] at h; injection h with ha hb; rw [← hb]
    rw [if_neg h2] at h
    rw [if_neg Bool.false_ne_true] at h
    by_cases h4 : ¬env.absOk = true
    · rw [if_pos h4] at h; injection h with ha hb; rw [← hb]
    rw [if_neg h4] at h
    rw [if_neg (not_not_intro rfl)] at h
    by_cases h6 : ¬env.luksFormat.ok = true
    · rw [if_pos h6] at h; injection h with ha hb; rw [← hb]
    rw [if_neg h6] at h
    by_cases h7 : ¬env.losetupOk = true
    · rw [if_pos h7] at h; injection h with ha hb; rw [← hb]
    rw [if_neg h7] at h
    by_cases h8 : ¬env.luksOpen.ok = true
    · rw [if_pos h8] at h; injection h with ha hb; rw [← hb]
    rw [if_neg h8] at h
    by_cases h9 : ¬env.mkfs.ok = true
    · rw [if_pos h9] at h; injection h with ha hb; rw [← hb]
    rw [if_neg h9] at h
    injection h with ha hb
    exact Except.noConfusion ha
  · intro e fs h
    unfold CreateBottleWithYubiKey at h
    rw [hstat, htr] at h
    by_cases h1 : bottle = []
    · rw [if_pos h1] at h; injection h with ha hb; exact hb.symm
    rw [if_neg h1] at h
    by_cases h2 : size = []
    · rw [if_pos h2] at h; injection h with ha hb; exact hb.symm
    rw [if_neg h2] at h
    by_cases h3 : secret.length ≠ 32
    · rw [if_pos h3] at h; injection h with ha hb; exact hb.symm
    rw [if_neg h3] at h
    rw [if_neg Bool.false_ne_true] at h
    by_cases h5 : ¬env.absOk = true
    · rw [if_pos h5] at h; injection h with ha hb; exact hb.symm
    rw [if_neg h5] at h
    rw [if_neg (not_not_intro rfl)] at h
    by_cases h7 : ¬env.saveConfigOk = true
    · rw [if_pos h7] at h; injection h with ha hb; exact hb.symm
    rw [if_neg h7] at h
    by_cases h8 : ¬env.luksFormat.ok = true
    · rw [if_pos h8] at h; injection h with ha hb; exact hb.symm
    rw [if_neg h8] at h
    by_cases h9 : ¬env.losetupOk = true
    · rw [if_pos h9] at h; injection h with ha hb; exact hb.symm
    rw [if_neg h9] at h
    by_cases h10 : ¬env.luksOpen.ok = true
    · rw [if_pos h10] at h; injection h with ha hb; exact hb.symm
    rw [if_neg h10] at h
    by_cases h11 : ¬env.mkfs.ok = true
    · rw [if_pos h11] at h; injection h with ha hb; exact hb.symm
    rw [if_neg h11] at h
    injection h with ha hb
    exact Except.noConfusion ha

def c10Env : CreateEnv :=
  { statExists := false, absOk := true, truncateRes := ⟨true, []⟩
    luksFormat := ⟨false, "Cannot wipe header on device".data⟩
    losetupOk := true, luksOpen := ⟨true, []⟩, mkfs := ⟨true, []⟩
    saveConfigOk := true }

theorem c10_witness :
    (CreateBottleWithYubiKey c10Env "test.bottle".data "500M".data
      (List.replicate 32 0)).2 = { bottleFile := false, configFile := false } :=
  (c10_create_all_or_nothing c10Env "test.bottle".data "500M".data
      (List.replicate 32 0) rfl rfl).2
    (.bottleError "luksFormat".data "Cannot wipe header on device".data)
    (CreateBottleWithYubiKey c10Env "test.bottle".data "500M".data
      (List.replicate 32 0)).2 rfl

set_option maxRecDepth 4096 in
/-- C7 — Bottle identity: the hash is the first 12 hex characters of the
SHA-256 of the resolved absolute path, so any two spellings that resolve to
the same absolute path get the same hash and hence the same mapper name
(fixed prefix plus hash) and the same config path (config directory plus hash
plus fixed suffix); distinctness of the hash for distinct paths is sampled on
concrete paths (a 96-bit truncation cannot be injective on all strings). -/
theorem c7_identity_hash_stability (absOf : Str → Option Str)
    (p1 p2 q configDir : Str)
    (h1 : absOf p1 = some q) (h2 : absOf p2 = some q) :
    (getBottleHash absOf p1 = (hexEncode (sha256Bytes (utf8Encode q))).take 12 ∧
     getBottleHash absOf p1 = getBottleHash absOf p2 ∧
     getMapperName absOf p1 = getMapperName absOf p2 ∧
     getConfigPath absOf configDir p1 = getConfigPath absOf configDir p2) ∧
    (getBottleHash some "/home/u/a.bottle".data ≠
       getBottleHash some "/home/u/b.bottle".data ∧
     getBottleHash some "/home/u/a.bottle".data ≠
       getBottleHash some "/tmp/x.bottle".data ∧
     getBottleHash some "/home/u/b.bottle".data ≠
       getBottleHash some "/tmp/x.bottle".data) := by
  constructor
  · refine ⟨?_, ?_, ?_, ?_⟩ <;>
      simp [getBottleHash, getMapperName, getConfigPath, h1, h2]
  · exact ⟨by decide, by decide, by decide⟩

theorem c7_witness :
    getBottleHash (fun _ => some "/home/u/a.bottle".data) "a.bottle".data =
      getBottleHash (fun _ => some "/home/u/a.bottle".data) "sub/../a.bottle".data :=
  ((c7_identity_hash_stability (fun _ => some "/home/u/a.bottle".data)
      "a.bottle".data "sub/../a.bottle".data "/home/u/a.bottle".data
      "/home/u/.config/bottle-launch".data rfl rfl).1).2.1

end BottleLaunch

